import Mathlib

/-!
Shallow embedding of the FlixFinder recommendation engine
(`recommendations/utils.py`, `recommendations/views.py`,
`recommendations/signals.py`, `recommendations/models.py`) together with
proofs about it.

Conventions of the embedding:
* Decimal scores and averages are exact rationals (`Rat`).
* Database query sets are Lean lists; the order of `DB.movies` is the
  enumeration order of the default `Movie` queryset.
* Python raw ids handed to the Surprise model are modelled by `RawId`:
  a Python `int` and a Python `str` are never equal.
* The learned SVD parameters (biases, latent dot products) are opaque
  outputs of the optimizer; they are threaded in as `LearnedParams`.
  The data-dependent parts of the model (global mean, raw-id key sets)
  are computed from the training frame exactly as the library does.
* `pickle`/storage I/O is modelled by `Option SVDModel` slots; the
  ghost counter `PersistState.reads` counts durable-storage reads.
-/

namespace FlixFinder

/-! ## Stable descending sort by a key

Python's `list.sort(key=..., reverse=True)` and Django's `order_by` on
descending keys are modelled by one stable insertion sort: an element is
placed after exactly those earlier elements whose key is strictly
larger, so ties keep their enumeration order. -/

def insertByKeyDesc {α β : Type} [LinearOrder β] (key : α → β) (p : α) :
    List α → List α
  | [] => [p]
  | q :: qs =>
    if key p < key q then q :: insertByKeyDesc key p qs else p :: q :: qs

def sortByKeyDesc {α β : Type} [LinearOrder β] (key : α → β) :
    List α → List α
  | [] => []
  | p :: ps => insertByKeyDesc key p (sortByKeyDesc key ps)

/-! ## Data model (`recommendations/models.py`) -/

/-- One row of the `Movie` table, restricted to the columns the engine
reads.  `movielens_id` is the external MovieLens identifier, a
`CharField` (string); `id` is the internal integer primary key. -/
structure Movie where
  id : Nat
  movielens_id : String
  title : String
  genres : List String
  average_rating : Rat
deriving DecidableEq

/-- One row of the `Rating` table: `(user_id, movie_id, score)`, where
`movie_id` is the internal `Movie` primary key. -/
structure Rating where
  userId : Nat
  movieId : Nat
  score : Rat
deriving DecidableEq

/-- A user together with the names of their preferred genres
(`user.preferred_genres.values_list('name', flat=True)`). -/
structure UserRec where
  id : Nat
  preferredGenres : List String
deriving DecidableEq

/-- The relational state the engine reads. -/
structure DB where
  movies : List Movie
  ratings : List Rating
  users : List UserRec
deriving DecidableEq

/-- `Movie.objects.in_bulk` / `User.objects.get` style primary-key
lookup. -/
def inBulk (db : DB) (mid : Nat) : Option Movie :=
  db.movies.find? (fun m => m.id == mid)

def findUser (db : DB) (uid : Nat) : Option UserRec :=
  db.users.find? (fun u => u.id == uid)

/-- `Rating.objects.filter(user=user).count()`. -/
def ratingCount (db : DB) (uid : Nat) : Nat :=
  (db.ratings.filter (fun r => r.userId == uid)).length

/-! ## Average-rating maintenance
(`Movie.update_average_rating` in `models.py` and the `post_save` /
`post_delete` receiver in `signals.py`).  The signal runs inline in the
same call that changed the rating, so each operation below already
contains the recomputation. -/

/-- `self.ratings.aggregate(avg=Avg('score'))['avg'] or Decimal('0.00')`:
the mean of the movie's rating scores, `0` when it has none. -/
def avgScores (ratings : List Rating) (mid : Nat) : Rat :=
  let s := (ratings.filter (fun r => r.movieId == mid)).map (fun r => r.score)
  if s.isEmpty then 0 else s.sum / s.length

/-- Python decimal ROUND_HALF_EVEN to an integer: round to the nearest
integer, ties to the even neighbour (the default context rounding used
by `Decimal.quantize`). -/
def roundHalfEven (x : Rat) : Int :=
  if x - ⌊x⌋ < 1/2 then ⌊x⌋
  else if 1/2 < x - ⌊x⌋ then ⌊x⌋ + 1
  else if ⌊x⌋ % 2 = 0 then ⌊x⌋ else ⌊x⌋ + 1

/-- The quantization to 2 decimal places that the
`DecimalField(max_digits=4, decimal_places=2)` column applies on save
(Django's `format_number` quantizes with the context's
ROUND_HALF_EVEN). -/
def quantize2 (x : Rat) : Rat := (roundHalfEven (100 * x) : Rat) / 100

/-- `Movie.update_average_rating`: recompute the mean and persist it on
the movie row.  The column is `DecimalField(max_digits=4,
decimal_places=2)`, so the value actually stored — and seen by every
subsequent reader — is the mean quantized to 2 decimal places.  (The
source skips the write when the value is unchanged; the resulting
state is the same.) -/
def update_average_rating (db : DB) (mid : Nat) : DB :=
  { db with
    movies := db.movies.map (fun m =>
      if m.id == mid then
        { m with average_rating := quantize2 (avgScores db.ratings mid) }
      else m) }

/-- The rating rows after
`Rating.objects.update_or_create(user=..., movie=..., defaults=score)`:
overwrite the score of the existing `(user, movie)` row, or append a
new row. -/
def upsertRatingRows (db : DB) (uid mid : Nat) (score : Rat) : List Rating :=
  if db.ratings.any (fun r => r.userId == uid && r.movieId == mid) then
    db.ratings.map (fun r =>
      if r.userId == uid && r.movieId == mid then { r with score := score } else r)
  else
    db.ratings ++ [⟨uid, mid, score⟩]

/-- `Rating.objects.update_or_create(user=..., movie=..., defaults=score)`
(the rate endpoint) followed by the `post_save` signal. -/
def upsertRating (db : DB) (uid mid : Nat) (score : Rat) : DB :=
  update_average_rating { db with ratings := upsertRatingRows db uid mid score } mid

/-- Rating deletion followed by the `post_delete` signal. -/
def deleteRating (db : DB) (uid mid : Nat) : DB :=
  update_average_rating
    { db with
      ratings := db.ratings.filter (fun r => !(r.userId == uid && r.movieId == mid)) }
    mid

/-! ## Trainer and trained model (`train_and_save_model`, Surprise SVD) -/

/-- A raw id as handed to the Surprise library.  The training frame
holds Python `int` user ids and `str` MovieLens ids; `predict` is
called with `str(...)` values.  A Python `int` never equals a `str`. -/
inductive RawId where
  | pint : Int → RawId
  | pstr : String → RawId
deriving DecidableEq

/-- One row of the training DataFrame built by `_get_ratings_df`:
`('user__id', 'movie__movielens_id', 'score')`. -/
structure DfRow where
  userId : Nat
  mlId : String
  score : Rat
deriving DecidableEq

/-- `_get_ratings_df`: join each rating with its movie and keep
`(user id, movielens id, score)`. -/
def ratingsDf (db : DB) : List DfRow :=
  db.ratings.filterMap (fun r =>
    (inBulk db r.movieId).map (fun m =>
      { userId := r.userId, mlId := m.movielens_id, score := r.score }))

/-- The optimizer's learned parameters (biases and latent dot
products), opaque data-dependent reals; only consulted for raw ids the
trainset knows. -/
structure LearnedParams where
  bu : RawId → Rat
  bi : RawId → Rat
  qdot : RawId → RawId → Rat

/-- The fitted SVD model.  `globalMean` is the mean of the trainset
scores; `none` encodes the IEEE NaN that `np.mean` of an empty rating
list produces.  `userKeys` / `itemKeys` are the raw ids the trainset
knows. -/
structure SVDModel where
  globalMean : Option Rat
  userKeys : List RawId
  itemKeys : List RawId
  bu : RawId → Rat
  bi : RawId → Rat
  qdot : RawId → RawId → Rat

def listMean (xs : List Rat) : Option Rat :=
  if xs.isEmpty then none else some (xs.sum / xs.length)

/-- Fitting `SVD(...)` on `Dataset.load_from_df(df)`: the raw user keys
are the (integer) `user__id` values, the raw item keys are the
(string) `movielens_id` values. -/
def trainSVD (params : LearnedParams) (df : List DfRow) : SVDModel :=
  { globalMean := listMean (df.map (fun r => r.score))
    userKeys := df.map (fun r => RawId.pint (r.userId : Int))
    itemKeys := df.map (fun r => RawId.pstr r.mlId)
    bu := params.bu
    bi := params.bi
    qdot := params.qdot }

/-- `AlgoBase.predict` clipping to the `Reader` rating scale
`(0.5, 5.0)`. -/
def clip (lo hi x : Rat) : Rat := max lo (min hi x)

/-- The biased-SVD estimate for the (already NaN-free) global mean
`gm`: start from the global mean and add the user bias, item bias and
latent dot product for the raw ids the trainset knows, then clip. -/
def SVDModel.est (algo : SVDModel) (gm : Rat) (u i : RawId) : Rat :=
  let ku := algo.userKeys.contains u
  let ki := algo.itemKeys.contains i
  clip (1/2) 5
    (gm + (if ku then algo.bu u else 0) + (if ki then algo.bi i else 0) +
      (if ku && ki then algo.qdot u i else 0))

/-! ## Model persistence (`train_and_save_model`, `load_model`) -/

inductive RecError where
  /-- No pickle exists locally and `default_storage.open` raised. -/
  | modelNotFound
  /-- `User.objects.get` raised `DoesNotExist`. -/
  | userNotFound
  /-- `movies, scores = zip(*recs)` raised `ValueError` on an empty
  list. -/
  | emptyUnpack
  /-- Ranking with NaN scores (a model fitted on zero ratings); its
  float sort order is not modelled. -/
  | nanRanking
deriving DecidableEq

/-- The persistence state: the local pickle file, the Django
`default_storage` copy, and the module-level `_cached_model` slot.
`reads` is a ghost counter of durable-storage reads. -/
structure PersistState where
  localFile : Option SVDModel
  storage : Option SVDModel
  cache : Option SVDModel
  reads : Nat

/-- `load_model`: serve the cache if populated (a model object is
always truthy), otherwise read the local file, otherwise the storage
copy, populating the cache; fail when neither location has a model. -/
def load_model (st : PersistState) : Except RecError (SVDModel × PersistState) :=
  match st.cache with
  | some m => .ok (m, st)
  | none =>
    match st.localFile with
    | some m => .ok (m, { st with cache := some m, reads := st.reads + 1 })
    | none =>
      match st.storage with
      | some m => .ok (m, { st with cache := some m, reads := st.reads + 1 })
      | none => .error .modelNotFound

/-- `train_and_save_model`: fit on the full ratings frame (no emptiness
check), overwrite both the local pickle and the storage copy, and reset
the module-level cache to `None`. -/
def train_and_save_model (params : LearnedParams) (db : DB) (st : PersistState) :
    SVDModel × PersistState :=
  let algo := trainSVD params (ratingsDf db)
  (algo, { st with localFile := some algo, storage := some algo, cache := none })

/-! ## Prediction service (`get_top_n_recommendations`) -/

/-- `Rating.objects.filter(user_id=user_id).values_list('movie__id')`. -/
def ratedMovieIds (db : DB) (uid : Nat) : List Nat :=
  (db.ratings.filter (fun r => r.userId == uid)).map (fun r => r.movieId)

/-- `Movie.objects.exclude(id__in=rated).values_list('id', flat=True)`,
in the queryset's enumeration order. -/
def candidateIds (db : DB) (uid : Nat) : List Nat :=
  (db.movies.filter (fun m => !(ratedMovieIds db uid).contains m.id)).map (fun m => m.id)

/-- The batch-predict list
`[(mid, algo.predict(str(user_id), str(mid)).est) for mid in candidates]`:
both raw ids are passed as Python strings. -/
def topnPreds (algo : SVDModel) (gm : Rat) (db : DB) (uid : Nat) : List (Nat × Rat) :=
  (candidateIds db uid).map (fun mid =>
    (mid, algo.est gm (RawId.pstr (toString uid)) (RawId.pstr (toString mid))))

/-- `get_top_n_recommendations`: score every unrated movie, stable-sort
descending by predicted score, truncate to `n`, and re-fetch the movies
by id.  A model fitted on zero ratings has NaN global mean; the float
sort order of NaN scores is not modelled (`none`). -/
def get_top_n_recommendations (algo : SVDModel) (db : DB) (uid n : Nat) :
    Option (List (Movie × Rat)) :=
  match algo.globalMean with
  | none => none
  | some gm =>
    let preds := sortByKeyDesc (fun p : Nat × Rat => p.2) (topnPreds algo gm db uid)
    let top := preds.take n
    some (top.filterMap (fun p => (inBulk db p.1).map (fun m => (m, p.2))))

/-! ## Content-based fallback (`recommend_based_on_genres`) -/

/-- `Count('genres', filter=Q(genres__name__in=prefs))`: the number of
the movie's genres that occur in the preference set. -/
def matchCount (prefs : List String) (m : Movie) : Nat :=
  (m.genres.filter (fun g => prefs.contains g)).length

/-- `recommend_based_on_genres`: top-`n` by average rating when the
user has no preferred genres, otherwise movies sharing at least one
genre ordered by `('-match_count', '-average_rating')`; the score of a
pair is always the movie's `average_rating`. -/
def recommend_based_on_genres (db : DB) (uid n : Nat) :
    Option (List (Movie × Rat)) :=
  (findUser db uid).map (fun u =>
    let prefs := u.preferredGenres
    if prefs.isEmpty then
      ((sortByKeyDesc (fun m : Movie => m.average_rating) db.movies).take n).map
        (fun m => (m, m.average_rating))
    else
      let qs := db.movies.filter (fun m => m.genres.any (fun g => prefs.contains g))
      ((sortByKeyDesc
          (fun m : Movie => toLex (matchCount prefs m, m.average_rating)) qs).take n).map
        (fun m => (m, m.average_rating)))

/-! ## Orchestrator (`RecommendMoviesView.get`) -/

inductive Strategy where
  | collaborative
  | contentBased
deriving DecidableEq

/-- `count = Rating.objects.filter(user=user).count(); if count > 5`. -/
def chooseStrategy (db : DB) (uid : Nat) : Strategy :=
  if 5 < ratingCount db uid then .collaborative else .contentBased

/-- Run one of the two strategies with `n = 10`, threading the
persistence state.  The content-based branch never touches the model
state. -/
def runStrategy (db : DB) (st : PersistState) (uid : Nat) :
    Strategy → Except RecError (List (Movie × Rat) × PersistState)
  | .collaborative =>
    match load_model st with
    | .error e => .error e
    | .ok (algo, st1) =>
      match get_top_n_recommendations algo db uid 10 with
      | none => .error .nanRanking
      | some recs => .ok (recs, st1)
  | .contentBased =>
    match recommend_based_on_genres db uid 10 with
    | none => .error .userNotFound
    | some recs => .ok (recs, st)

/-- The strategy dispatch of `RecommendMoviesView.get`. -/
def strategyRecs (db : DB) (st : PersistState) (uid : Nat) :
    Except RecError (List (Movie × Rat) × PersistState) :=
  runStrategy db st uid (chooseStrategy db uid)

/-- The whole view body: dispatch, then
`movies, scores = zip(*recs)`, which raises `ValueError` when `recs`
is the empty list. -/
def recommendView (db : DB) (st : PersistState) (uid : Nat) :
    Except RecError (List (Movie × Rat) × PersistState) :=
  match strategyRecs db st uid with
  | .error e => .error e
  | .ok (recs, st1) => if recs.isEmpty then .error .emptyUnpack else .ok (recs, st1)

/-! ## Concrete fixtures used to evaluate the definitions -/

/-- A movie whose primary key (1) read as a string differs from its
MovieLens id ("2"). -/
def mA : Movie := ⟨1, "2", "A", ["Action"], 4⟩

/-- A movie whose MovieLens id ("1") collides with `mA`'s primary key
string. -/
def mB : Movie := ⟨2, "1", "B", ["Drama"], 3⟩

/-- Catalog with the colliding pair, one rating by user 7 on `mB`, and
a fresh user 9 with no preferred genres. -/
def cdb9 : DB := ⟨[mA, mB], [⟨7, 2, 3⟩], [⟨9, []⟩]⟩

/-- A plausible optimizer output: zero user biases, unit item biases,
zero latent dot products. -/
def params9 : LearnedParams := ⟨fun _ => 0, fun _ => 1, fun _ _ => 0⟩

def algo9 : SVDModel := trainSVD params9 (ratingsDf cdb9)

def movC (i : Nat) : Movie := ⟨i, toString (100 + i), "C", [], 1⟩

/-- Catalog of seven movies where user 1 has rated six of them, so the
orchestrator picks the collaborative strategy. -/
def cdb5 : DB :=
  ⟨[movC 1, movC 2, movC 3, movC 4, movC 5, movC 6, movC 7],
    [⟨1, 1, 3⟩, ⟨1, 2, 3⟩, ⟨1, 3, 3⟩, ⟨1, 4, 3⟩, ⟨1, 5, 3⟩, ⟨1, 6, 3⟩],
    [⟨1, []⟩]⟩

/-- No model anywhere, empty cache. -/
def st0 : PersistState := ⟨none, none, none, 0⟩

/-- A populated cache slot. -/
def stC : PersistState := ⟨none, none, some algo9, 5⟩

/-- A previously persisted model in both durable locations. -/
def stPrev : PersistState := ⟨some algo9, some algo9, none, 0⟩

/-- Empty catalog, one user. -/
def cdbE : DB := ⟨[], [], [⟨1, []⟩]⟩

def mG1 : Movie := ⟨11, "501", "G1", ["Action", "Sci-Fi"], 2⟩

def mG2 : Movie := ⟨12, "502", "G2", ["Action"], 5⟩

def mG3 : Movie := ⟨13, "503", "G3", ["Romance"], 5⟩

/-- Catalog for the genre-preference branch: user 4 prefers Action and
Sci-Fi; `mG1` matches both preferred genres, `mG2` one, `mG3` none. -/
def cdbG : DB := ⟨[mG1, mG2, mG3], [], [⟨4, ["Action", "Sci-Fi"]⟩]⟩

def mQ : Movie := ⟨21, "601", "Q", [], 0⟩

/-- Catalog for the average-quantization counterexample: `mQ` already
holds two 5.0 scores, so a third score of 4.0 makes the mean 14/3. -/
def cdbQ : DB := ⟨[mQ], [⟨1, 21, 5⟩, ⟨2, 21, 5⟩], [⟨1, []⟩]⟩

/-- Non-empty catalog with an empty rating table. -/
def cdbNoRatings : DB := ⟨[mA], [], [⟨1, []⟩]⟩

/-! ## Lemmas about the stable descending sort -/

theorem insertByKeyDesc_perm {α β : Type} [LinearOrder β] (key : α → β) (p : α)
    (l : List α) : (insertByKeyDesc key p l).Perm (p :: l) := by
  induction l with
  | nil => simp [insertByKeyDesc]
  | cons q qs ih =>
    simp only [insertByKeyDesc]
    split
    · exact (ih.cons q).trans (List.Perm.swap p q qs)
    · exact List.Perm.refl _

theorem sortByKeyDesc_perm {α β : Type} [LinearOrder β] (key : α → β) (l : List α) :
    (sortByKeyDesc key l).Perm l := by
  induction l with
  | nil => exact List.Perm.refl _
  | cons p ps ih => exact (insertByKeyDesc_perm key p _).trans (ih.cons p)

theorem sortByKeyDesc_length {α β : Type} [LinearOrder β] (key : α → β) (l : List α) :
    (sortByKeyDesc key l).length = l.length :=
  (sortByKeyDesc_perm key l).length_eq

theorem sortByKeyDesc_mem {α β : Type} [LinearOrder β] (key : α → β) (l : List α)
    (a : α) : a ∈ sortByKeyDesc key l ↔ a ∈ l :=
  (sortByKeyDesc_perm key l).mem_iff

theorem insertByKeyDesc_pairwise {α β : Type} [LinearOrder β] (key : α → β) (p : α)
    (l : List α) (h : l.Pairwise (fun a b => key b ≤ key a)) :
    (insertByKeyDesc key p l).Pairwise (fun a b => key b ≤ key a) := by
  induction l with
  | nil => simp [insertByKeyDesc]
  | cons q qs ih =>
    rcases List.pairwise_cons.mp h with ⟨hq, hqs⟩
    simp only [insertByKeyDesc]
    split
    · rename_i hlt
      refine List.pairwise_cons.mpr ⟨?_, ih hqs⟩
      intro r hr
      rcases List.mem_cons.mp ((insertByKeyDesc_perm key p qs).mem_iff.mp hr) with h1 | h2
      · exact h1 ▸ le_of_lt hlt
      · exact hq r h2
    · rename_i hnlt
      have hqp : key q ≤ key p := le_of_not_lt hnlt
      refine List.pairwise_cons.mpr ⟨?_, h⟩
      intro r hr
      rcases List.mem_cons.mp hr with h1 | h2
      · exact h1 ▸ hqp
      · exact (hq r h2).trans hqp

theorem sortByKeyDesc_pairwise {α β : Type} [LinearOrder β] (key : α → β)
    (l : List α) :
    (sortByKeyDesc key l).Pairwise (fun a b => key b ≤ key a) := by
  induction l with
  | nil => simp [sortByKeyDesc]
  | cons p ps ih => exact insertByKeyDesc_pairwise key p _ ih

theorem insertByKeyDesc_filter_pos {α β : Type} [LinearOrder β] (key : α → β)
    (p : α) (l : List α) (pr : α → Bool) (hp : pr p = true)
    (hgt : ∀ q, key p < key q → pr q = false) :
    (insertByKeyDesc key p l).filter pr = p :: l.filter pr := by
  induction l with
  | nil => simp [insertByKeyDesc, hp]
  | cons q qs ih =>
    simp only [insertByKeyDesc]
    split
    · rename_i hlt
      simp [List.filter_cons, hgt q hlt, ih]
    · simp [List.filter_cons, hp]

theorem insertByKeyDesc_filter_neg {α β : Type} [LinearOrder β] (key : α → β)
    (p : α) (l : List α) (pr : α → Bool) (hp : pr p = false) :
    (insertByKeyDesc key p l).filter pr = l.filter pr := by
  induction l with
  | nil => simp [insertByKeyDesc, hp]
  | cons q qs ih =>
    simp only [insertByKeyDesc]
    split
    · simp [List.filter_cons, ih]
    · simp [List.filter_cons, hp]

/-- Stability of the sort: the elements whose key is `k` appear in the
sorted output exactly in their input order. -/
theorem sortByKeyDesc_filter {α β : Type} [LinearOrder β] (key : α → β)
    (l : List α) (k : β) :
    (sortByKeyDesc key l).filter (fun a => key a == k) =
      l.filter (fun a => key a == k) := by
  induction l with
  | nil => rfl
  | cons p ps ih =>
    simp only [sortByKeyDesc]
    by_cases hp : key p = k
    · rw [insertByKeyDesc_filter_pos key p _ _ (by simp [hp])
        (fun q hq => by
          have : key q ≠ k := by
            intro hqk
            exact absurd (hp ▸ hqk ▸ hq) (lt_irrefl _)
          simp [this]), ih]
      simp [List.filter_cons, hp]
    · rw [insertByKeyDesc_filter_neg key p _ _ (by simp [hp]), ih]
      simp [List.filter_cons, hp]

/-! ## Lemmas about lookups and candidates -/

theorem inBulk_id {db : DB} {mid : Nat} {m : Movie} (h : inBulk db mid = some m) :
    m.id = mid := by
  have := List.find?_some h
  simpa using this

theorem inBulk_mem {db : DB} {mid : Nat} {m : Movie} (h : inBulk db mid = some m) :
    m ∈ db.movies :=
  List.mem_of_find?_eq_some h

theorem inBulk_isSome_of_mem_ids {db : DB} {mid : Nat}
    (h : mid ∈ db.movies.map (fun m => m.id)) :
    ∃ m, inBulk db mid = some m := by
  rcases List.mem_map.mp h with ⟨m, hm, rfl⟩
  have hs : (db.movies.find? (fun x => x.id == m.id)).isSome :=
    List.find?_isSome.mpr ⟨m, hm, by simp⟩
  rcases Option.isSome_iff_exists.mp hs with ⟨m2, hm2⟩
  exact ⟨m2, hm2⟩

theorem candidateIds_subset_ids {db : DB} {uid : Nat} {mid : Nat}
    (h : mid ∈ candidateIds db uid) : mid ∈ db.movies.map (fun m => m.id) := by
  rcases List.mem_map.mp h with ⟨m, hm, rfl⟩
  exact List.mem_map.mpr ⟨m, List.mem_of_mem_filter hm, rfl⟩

theorem candidateIds_unrated {db : DB} {uid : Nat} {mid : Nat}
    (h : mid ∈ candidateIds db uid) :
    (ratedMovieIds db uid).contains mid = false := by
  rcases List.mem_map.mp h with ⟨m, hm, rfl⟩
  have := List.of_mem_filter hm
  simpa using this

theorem top_filterMap_id (db : DB) (top : List (Nat × Rat))
    (h : ∀ p ∈ top, p.1 ∈ db.movies.map (fun m => m.id)) :
    (top.filterMap (fun p => (inBulk db p.1).map (fun m => (m, p.2)))).map
      (fun q => (q.1.id, q.2)) = top := by
  induction top with
  | nil => rfl
  | cons p ps ih =>
    rcases inBulk_isSome_of_mem_ids (h p (List.mem_cons_self p ps)) with ⟨m, hm⟩
    simp only [List.filterMap_cons, hm, Option.map_some', List.map_cons]
    rw [inBulk_id hm, ih (fun q hq => h q (List.mem_cons_of_mem p hq))]

/-! ## Claim theorems -/

/-- C1: for a user with an available model, `get_top_n_recommendations`
returns at most `n` pairs (exactly `min n` with the number of unrated
candidates, so when fewer than `n` candidates exist all of them are
returned, with no padding and no error); every returned movie is in the
catalog and unrated by the user; the pairs are sorted descending by
predicted score; and ties keep the stable candidate-enumeration order:
for every score `k`, the pairs scored `k` form, in order, a sublist of
the batch-predict list. -/
theorem claim_C1_top_n_shape (algo : SVDModel) (gm : Rat) (db : DB) (uid n : Nat)
    (l : List (Movie × Rat))
    (hm : algo.globalMean = some gm)
    (hl : get_top_n_recommendations algo db uid n = some l) :
    l.length = min n (candidateIds db uid).length ∧
    (∀ p ∈ l, p.1 ∈ db.movies ∧ (ratedMovieIds db uid).contains p.1.id = false) ∧
    l.Pairwise (fun a b => b.2 ≤ a.2) ∧
    (∀ k : Rat,
      ((l.map (fun p => (p.1.id, p.2))).filter (fun q => q.2 == k)).Sublist
        ((topnPreds algo gm db uid).filter (fun q => q.2 == k))) := by
  have hl2 :
      ((sortByKeyDesc (fun p : Nat × Rat => p.2) (topnPreds algo gm db uid)).take n).filterMap
        (fun p => (inBulk db p.1).map (fun m => (m, p.2))) = l := by
    unfold get_top_n_recommendations at hl
    rw [hm] at hl
    simpa using hl
  subst hl2
  have hmemtop :
      ∀ p ∈ (sortByKeyDesc (fun p : Nat × Rat => p.2) (topnPreds algo gm db uid)).take n,
        p.1 ∈ candidateIds db uid := by
    intro p hp
    have h1 : p ∈ sortByKeyDesc (fun p : Nat × Rat => p.2) (topnPreds algo gm db uid) :=
      List.mem_of_mem_take hp
    have h2 : p ∈ topnPreds algo gm db uid :=
      (sortByKeyDesc_perm _ _).mem_iff.mp h1
    rcases List.mem_map.mp h2 with ⟨mid, hmid, heq⟩
    rw [← heq]
    exact hmid
  have hids :
      ∀ p ∈ (sortByKeyDesc (fun p : Nat × Rat => p.2) (topnPreds algo gm db uid)).take n,
        p.1 ∈ db.movies.map (fun m => m.id) :=
    fun p hp => candidateIds_subset_ids (hmemtop p hp)
  have hmap := top_filterMap_id db _ hids
  refine ⟨?_, ?_, ?_, ?_⟩
  · have hlen := congrArg List.length hmap
    rw [List.length_map] at hlen
    rw [hlen, List.length_take, sortByKeyDesc_length]
    have : (topnPreds algo gm db uid).length = (candidateIds db uid).length :=
      List.length_map _ _
    rw [this]
  · intro p hp
    rcases List.mem_filterMap.mp hp with ⟨q, hq, hfq⟩
    rcases Option.map_eq_some'.mp hfq with ⟨m, hmB, hpm⟩
    rw [← hpm]
    refine ⟨inBulk_mem hmB, ?_⟩
    have : m.id = q.1 := inBulk_id hmB
    rw [this]
    exact candidateIds_unrated (hmemtop q hq)
  · have hsp :
        (sortByKeyDesc (fun p : Nat × Rat => p.2) (topnPreds algo gm db uid)).Pairwise
          (fun a b => b.2 ≤ a.2) := by
      simpa using sortByKeyDesc_pairwise (fun p : Nat × Rat => p.2) (topnPreds algo gm db uid)
    have htp := List.Pairwise.sublist (List.take_sublist n _) hsp
    rw [← hmap] at htp
    have := List.pairwise_map.mp htp
    simpa using this
  · intro k
    rw [hmap]
    have h2 := sortByKeyDesc_filter (fun p : Nat × Rat => p.2) (topnPreds algo gm db uid) k
    calc
      ((sortByKeyDesc (fun p : Nat × Rat => p.2) (topnPreds algo gm db uid)).take n).filter
          (fun q => q.2 == k) |>.Sublist
        ((sortByKeyDesc (fun p : Nat × Rat => p.2) (topnPreds algo gm db uid)).filter
          (fun q => q.2 == k)) := List.Sublist.filter _ (List.take_sublist n _)
      _ = (topnPreds algo gm db uid).filter (fun q => q.2 == k) := h2

theorem load_model_not_found (st : PersistState) (h1 : st.cache = none)
    (h2 : st.localFile = none) (h3 : st.storage = none) :
    load_model st = .error RecError.modelNotFound := by
  unfold load_model
  rw [h1, h2, h3]

/-- C2: the orchestrator chooses by the user's rating count with
threshold 5: strictly more than 5 ratings selects the collaborative
Prediction-Service path, and with 5 or fewer ratings only the
content-based fallback runs — the recommendations do not depend on the
model state, the persistence state (including its read counter) is
returned untouched, and the request can never fail with
`modelNotFound`. -/
theorem claim_C2_strategy_choice (db : DB) (st st2 : PersistState) (uid : Nat) :
    (5 < ratingCount db uid →
      chooseStrategy db uid = Strategy.collaborative ∧
      strategyRecs db st uid = runStrategy db st uid Strategy.collaborative) ∧
    (ratingCount db uid ≤ 5 →
      chooseStrategy db uid = Strategy.contentBased ∧
      (strategyRecs db st uid).map Prod.fst = (strategyRecs db st2 uid).map Prod.fst ∧
      (∀ recs st1, strategyRecs db st uid = .ok (recs, st1) → st1 = st) ∧
      strategyRecs db st uid ≠ .error RecError.modelNotFound) := by
  constructor
  · intro h
    have hc : chooseStrategy db uid = Strategy.collaborative := by
      unfold chooseStrategy
      rw [if_pos h]
    exact ⟨hc, by rw [strategyRecs, hc]⟩
  · intro h
    have hc : chooseStrategy db uid = Strategy.contentBased := by
      unfold chooseStrategy
      rw [if_neg (not_lt.mpr h)]
    have hs : ∀ s : PersistState,
        strategyRecs db s uid = runStrategy db s uid Strategy.contentBased :=
      fun s => by rw [strategyRecs, hc]
    refine ⟨hc, ?_, ?_, ?_⟩
    · rw [hs st, hs st2]
      simp only [runStrategy]
      cases hrec : recommend_based_on_genres db uid 10 <;> simp [hrec, Except.map]
    · intro recs st1 hst
      rw [hs st] at hst
      simp only [runStrategy] at hst
      cases hrec : recommend_based_on_genres db uid 10 with
      | none => rw [hrec] at hst; simp at hst
      | some r =>
        rw [hrec] at hst
        simp at hst
        exact hst.2.symm
    · rw [hs st]
      simp only [runStrategy]
      cases hrec : recommend_based_on_genres db uid 10 <;> simp [hrec]

theorem find_map_setAvg (ms : List Movie) (mid : Nat) (A : Rat) (m : Movie)
    (h : (ms.map (fun x =>
        if x.id == mid then { x with average_rating := A } else x)).find?
          (fun x => x.id == mid) = some m) :
    m.average_rating = A := by
  induction ms with
  | nil => simp at h
  | cons a t ih =>
    rw [List.map_cons] at h
    by_cases ha : a.id = mid
    · rw [if_pos (by simp [ha]),
        List.find?_cons_of_pos _ (by simp [ha])] at h
      have := Option.some.inj h
      rw [← this]
    · rw [if_neg (by simp [ha]),
        List.find?_cons_of_neg _ (by simp [ha])] at h
      exact ih h

theorem inBulk_update_average (db : DB) (mid : Nat) (m : Movie)
    (h : inBulk (update_average_rating db mid) mid = some m) :
    m.average_rating = quantize2 (avgScores db.ratings mid) :=
  find_map_setAvg db.movies mid _ m h

/-- C3 (amended): after a rating upsert (`update_or_create` plus the
`post_save` signal) or a rating deletion (plus the `post_delete`
signal), the affected movie's stored `average_rating` equals the
2-decimal ROUND_HALF_EVEN quantization of the mean of the scores of
all its rating rows (`avgScores` is `0` when none remain, and
`quantize2 0 = 0`) — the `DecimalField(max_digits=4, decimal_places=2)`
column quantizes the persisted value, so the stored average is the
rounded mean, not the exact mean.  The signal receiver runs inline in
the triggering call, so the post state read by any later reader
already satisfies the invariant. -/
theorem claim_C3_average_invariant (db : DB) (uid mid : Nat) (score : Rat)
    (m1 m2 : Movie) :
    (inBulk (upsertRating db uid mid score) mid = some m1 →
      m1.average_rating =
        quantize2 (avgScores (upsertRating db uid mid score).ratings mid)) ∧
    (inBulk (deleteRating db uid mid) mid = some m2 →
      m2.average_rating =
        quantize2 (avgScores (deleteRating db uid mid).ratings mid)) := by
  constructor
  · intro h
    unfold upsertRating at h ⊢
    exact inBulk_update_average
      { db with ratings := upsertRatingRows db uid mid score } mid m1 h
  · intro h
    unfold deleteRating at h ⊢
    exact inBulk_update_average
      { db with
        ratings := db.ratings.filter (fun r => !(r.userId == uid && r.movieId == mid)) }
      mid m2 h

/-- C5 counterexample: user 1 has six ratings and no model exists in
cache, local file or storage.  The orchestrator propagates the
model-not-found failure instead of returning the content-based list,
even though that fallback list exists and is non-empty. -/
theorem claim_C5_counterexample :
    5 < ratingCount cdb5 1 ∧
    strategyRecs cdb5 st0 1 = .error RecError.modelNotFound ∧
    recommend_based_on_genres cdb5 1 10 =
      some [(movC 1, 1), (movC 2, 1), (movC 3, 1), (movC 4, 1), (movC 5, 1),
        (movC 6, 1), (movC 7, 1)] := by
  refine ⟨by decide, ?_, by decide⟩
  rfl

/-- C5 (amended): for a user with more than 5 ratings, when no model is
available in any location the orchestrator propagates the
model-not-found error to the caller; no content-based fallback
happens. -/
theorem claim_C5_load_failure_propagates (db : DB) (st : PersistState) (uid : Nat)
    (hc : 5 < ratingCount db uid) (h1 : st.cache = none)
    (h2 : st.localFile = none) (h3 : st.storage = none) :
    strategyRecs db st uid = .error RecError.modelNotFound := by
  have hcs : chooseStrategy db uid = Strategy.collaborative := by
    unfold chooseStrategy
    rw [if_pos hc]
  rw [strategyRecs, hcs]
  simp only [runStrategy]
  rw [load_model_not_found st h1 h2 h3]

/-- C6: when no model exists in the cache, the local filesystem or the
storage backend, `load_model` fails with the model-not-found error — in
particular it never returns any (undefined or partial) model in that
state. -/
theorem claim_C6_load_not_found (st : PersistState) (h1 : st.cache = none)
    (h2 : st.localFile = none) (h3 : st.storage = none) :
    load_model st = .error RecError.modelNotFound :=
  load_model_not_found st h1 h2 h3

/-- C7: contrary to the claim, training on an empty rating set does not
fail: it fits a model whose global mean is the mean of zero scores
(IEEE NaN, here `none`) and overwrites both persisted artifacts with
that degenerate model, resetting the cache. -/
theorem claim_C7_empty_training (params : LearnedParams) (db : DB)
    (st : PersistState) (h : db.ratings = []) :
    (train_and_save_model params db st).1.globalMean = none ∧
    (train_and_save_model params db st).2.localFile =
      some (train_and_save_model params db st).1 ∧
    (train_and_save_model params db st).2.storage =
      some (train_and_save_model params db st).1 ∧
    (train_and_save_model params db st).2.cache = none := by
  unfold train_and_save_model trainSVD ratingsDf listMean
  rw [h]
  simp

/-- C8: a `load_model` that returned a model leaves the cache holding
that model, so an immediately following `load_model` returns the very
same model and the very same state (in particular the durable-read
counter is unchanged: the second call is served from the cache); and
after `train_and_save_model` — which overwrites both artifacts and
invalidates the cache — the next `load_model` returns exactly the newly
saved model, re-reading storage once. -/
theorem claim_C8_cache_idempotence (st : PersistState) (m : SVDModel)
    (st1 : PersistState) (params : LearnedParams) (db : DB)
    (h : load_model st = .ok (m, st1)) :
    load_model st1 = .ok (m, st1) ∧
    load_model (train_and_save_model params db st1).2 =
      .ok ((train_and_save_model params db st1).1,
        { (train_and_save_model params db st1).2 with
            cache := some (train_and_save_model params db st1).1,
            reads := (train_and_save_model params db st1).2.reads + 1 }) := by
  constructor
  · have hc : st1.cache = some m := by
      unfold load_model at h
      cases hca : st.cache with
      | some c =>
        rw [hca] at h
        simp at h
        rw [← h.2, hca, h.1]
      | none =>
        rw [hca] at h
        cases hlf : st.localFile with
        | some c =>
          rw [hlf] at h
          simp at h
          rw [← h.2, h.1]
        | none =>
          rw [hlf] at h
          cases hst2 : st.storage with
          | some c =>
            rw [hst2] at h
            simp at h
            rw [← h.2, h.1]
          | none =>
            rw [hst2] at h
            simp at h
    unfold load_model
    rw [hc]
  · rfl

theorem contains_pstr_of_map_pint (df : List DfRow) (s : String) :
    ((df.map (fun r => RawId.pint (r.userId : Int))).contains (RawId.pstr s)) = false := by
  induction df with
  | nil => rfl
  | cons a t ih => simp [List.contains_cons, ih]

/-- C9 (amended): the trained model's item keys are exactly the (string)
`movielens_id` values of the rated movies and its user keys the
(integer) user ids, while ranking queries the model with
`str(primary key)` for both; hence whenever a candidate's primary-key
string is not among the trained item keys, the score used to rank it is
the default bias-based estimate `clip(global mean)` for a fully unknown
(user, item) pair, not any trained latent-factor prediction. -/
theorem claim_C9_key_mismatch (params : LearnedParams) (db : DB) (gm : Rat)
    (uid mid : Nat) (s : Rat)
    (hmem : (mid, s) ∈ topnPreds (trainSVD params (ratingsDf db)) gm db uid)
    (hunk : (trainSVD params (ratingsDf db)).itemKeys.contains
      (RawId.pstr (toString mid)) = false) :
    (trainSVD params (ratingsDf db)).itemKeys =
      (ratingsDf db).map (fun r => RawId.pstr r.mlId) ∧
    (trainSVD params (ratingsDf db)).userKeys =
      (ratingsDf db).map (fun r => RawId.pint (r.userId : Int)) ∧
    s = clip (1/2) 5 gm := by
  refine ⟨rfl, rfl, ?_⟩
  rcases List.mem_map.mp hmem with ⟨mid2, hm2, heq⟩
  have hmid : mid2 = mid := congrArg Prod.fst heq
  have hs : s = (trainSVD params (ratingsDf db)).est gm
      (RawId.pstr (toString uid)) (RawId.pstr (toString mid2)) :=
    (congrArg Prod.snd heq).symm
  subst hmid
  rw [hs]
  have hku : ((trainSVD params (ratingsDf db)).userKeys.contains
      (RawId.pstr (toString uid))) = false :=
    contains_pstr_of_map_pint (ratingsDf db) _
  simp only [SVDModel.est]
  rw [hku, hunk]
  simp

/-- C4: the content-based fallback.  Every returned pair carries the
movie's own `average_rating` as its score.  With an empty preferred-
genre set it returns the global top-`n` movies by average rating:
`min n` catalog-size pairs, sorted descending, such that no excluded
movie has a higher average than any returned one.  With a non-empty
preference set it returns only movies sharing at least one preferred
genre, sorted by (overlap count descending, average rating descending)
and truncated to `n`: `min n` matching-set-size pairs, sorted by that
lexicographic key, and no excluded matching movie beats any returned
one in the key order. -/
theorem claim_C4_content_fallback (db : DB) (uid n : Nat) (u : UserRec)
    (l : List (Movie × Rat))
    (hu : findUser db uid = some u)
    (hl : recommend_based_on_genres db uid n = some l) :
    (∀ p ∈ l, p.1 ∈ db.movies ∧ p.2 = p.1.average_rating) ∧
    (u.preferredGenres = [] →
      l.length = min n db.movies.length ∧
      l.Pairwise (fun a b => b.2 ≤ a.2) ∧
      (∀ m ∈ db.movies, m ∉ l.map Prod.fst → ∀ p ∈ l, m.average_rating ≤ p.2)) ∧
    (u.preferredGenres ≠ [] →
      (∀ p ∈ l, ∃ g ∈ p.1.genres, g ∈ u.preferredGenres) ∧
      l.length = min n (db.movies.filter (fun m =>
        m.genres.any (fun g => u.preferredGenres.contains g))).length ∧
      l.Pairwise (fun a b =>
        matchCount u.preferredGenres b.1 < matchCount u.preferredGenres a.1 ∨
          (matchCount u.preferredGenres b.1 = matchCount u.preferredGenres a.1 ∧
            b.1.average_rating ≤ a.1.average_rating)) ∧
      (∀ m ∈ db.movies.filter (fun m =>
          m.genres.any (fun g => u.preferredGenres.contains g)),
        m ∉ l.map Prod.fst → ∀ p ∈ l,
          matchCount u.preferredGenres m < matchCount u.preferredGenres p.1 ∨
            (matchCount u.preferredGenres m = matchCount u.preferredGenres p.1 ∧
              m.average_rating ≤ p.1.average_rating))) := by
  unfold recommend_based_on_genres at hl
  rw [hu] at hl
  simp only [Option.map_some', Option.some.injEq] at hl
  by_cases hpe : u.preferredGenres = []
  · rw [if_pos (by simp [hpe])] at hl
    subst hl
    refine ⟨?_, fun _ => ⟨?_, ?_, ?_⟩, fun hne => absurd hpe hne⟩
    · intro p hp
      rcases List.mem_map.mp hp with ⟨m, hm, hpm⟩
      rw [← hpm]
      exact ⟨(sortByKeyDesc_mem _ _ m).mp (List.mem_of_mem_take hm), rfl⟩
    · rw [List.length_map, List.length_take, sortByKeyDesc_length]
    · have hsp := sortByKeyDesc_pairwise (fun m : Movie => m.average_rating) db.movies
      have htp := List.Pairwise.sublist (List.take_sublist n _) hsp
      rw [List.pairwise_map]
      simpa using htp
    · intro m hm hnot p hp
      have hfst :
          (((sortByKeyDesc (fun m : Movie => m.average_rating) db.movies).take n).map
            (fun m => (m, m.average_rating))).map Prod.fst =
          (sortByKeyDesc (fun m : Movie => m.average_rating) db.movies).take n := by
        rw [List.map_map]
        exact List.map_id' _
      rw [hfst] at hnot
      have hmem : m ∈ sortByKeyDesc (fun m : Movie => m.average_rating) db.movies :=
        (sortByKeyDesc_mem _ _ m).mpr hm
      rw [← List.take_append_drop n
        (sortByKeyDesc (fun m : Movie => m.average_rating) db.movies)] at hmem
      rcases List.mem_append.mp hmem with hmt | hmd
      · exact absurd hmt hnot
      · have hsp := sortByKeyDesc_pairwise (fun m : Movie => m.average_rating) db.movies
        rw [← List.take_append_drop n
          (sortByKeyDesc (fun m : Movie => m.average_rating) db.movies)] at hsp
        rcases List.pairwise_append.mp hsp with ⟨_, _, hcross⟩
        rcases List.mem_map.mp hp with ⟨a, ha, hpa⟩
        rw [← hpa]
        exact hcross a ha m hmd
  · rw [if_neg (by simp [List.isEmpty_iff, hpe])] at hl
    subst hl
    refine ⟨?_, fun hemp => absurd hemp hpe, fun _ => ⟨?_, ?_, ?_, ?_⟩⟩
    · intro p hp
      rcases List.mem_map.mp hp with ⟨m, hm, hpm⟩
      rw [← hpm]
      have hmq := (sortByKeyDesc_mem _ _ m).mp (List.mem_of_mem_take hm)
      exact ⟨List.mem_of_mem_filter hmq, rfl⟩
    · intro p hp
      rcases List.mem_map.mp hp with ⟨m, hm, hpm⟩
      have hmq := (sortByKeyDesc_mem _ _ m).mp (List.mem_of_mem_take hm)
      have hfil := List.of_mem_filter hmq
      rw [← hpm]
      rcases List.any_eq_true.mp hfil with ⟨g, hg, hcont⟩
      exact ⟨g, hg, by simpa using hcont⟩
    · rw [List.length_map, List.length_take, sortByKeyDesc_length]
    · have hsp := sortByKeyDesc_pairwise
        (fun m : Movie => toLex (matchCount u.preferredGenres m, m.average_rating))
        (db.movies.filter (fun m =>
          m.genres.any (fun g => u.preferredGenres.contains g)))
      have htp := List.Pairwise.sublist (List.take_sublist n _) hsp
      rw [List.pairwise_map]
      refine List.Pairwise.imp ?_ htp
      intro a b hab
      simpa using (Prod.Lex.le_iff _ _).mp hab
    · intro m hm hnot p hp
      have hfst :
          (((sortByKeyDesc (fun m : Movie =>
              toLex (matchCount u.preferredGenres m, m.average_rating))
            (db.movies.filter (fun m =>
              m.genres.any (fun g => u.preferredGenres.contains g)))).take n).map
            (fun m => (m, m.average_rating))).map Prod.fst =
          (sortByKeyDesc (fun m : Movie =>
              toLex (matchCount u.preferredGenres m, m.average_rating))
            (db.movies.filter (fun m =>
              m.genres.any (fun g => u.preferredGenres.contains g)))).take n := by
        rw [List.map_map]
        exact List.map_id' _
      rw [hfst] at hnot
      have hmem : m ∈ sortByKeyDesc (fun m : Movie =>
          toLex (matchCount u.preferredGenres m, m.average_rating))
          (db.movies.filter (fun m =>
            m.genres.any (fun g => u.preferredGenres.contains g))) :=
        (sortByKeyDesc_mem _ _ m).mpr hm
      rw [← List.take_append_drop n
        (sortByKeyDesc (fun m : Movie =>
            toLex (matchCount u.preferredGenres m, m.average_rating))
          (db.movies.filter (fun m =>
            m.genres.any (fun g => u.preferredGenres.contains g))))] at hmem
      rcases List.mem_append.mp hmem with hmt | hmd
      · exact absurd hmt hnot
      · have hsp := sortByKeyDesc_pairwise
          (fun m : Movie => toLex (matchCount u.preferredGenres m, m.average_rating))
          (db.movies.filter (fun m =>
            m.genres.any (fun g => u.preferredGenres.contains g)))
        rw [← List.take_append_drop n
          (sortByKeyDesc (fun m : Movie =>
              toLex (matchCount u.preferredGenres m, m.average_rating))
            (db.movies.filter (fun m =>
              m.genres.any (fun g => u.preferredGenres.contains g))))] at hsp
        rcases List.pairwise_append.mp hsp with ⟨_, _, hcross⟩
        rcases List.mem_map.mp hp with ⟨a, ha, hpa⟩
        rw [← hpa]
        simpa using (Prod.Lex.le_iff _ _).mp (hcross a ha m hmd)

/-- C10: whenever the dispatched strategy produces an empty
recommendation list, the view's `zip(*recs)` unpacking raises instead
of returning an empty result. -/
theorem claim_C10_empty_unpack (db : DB) (st : PersistState) (uid : Nat)
    (st1 : PersistState) (h : strategyRecs db st uid = .ok ([], st1)) :
    recommendView db st uid = .error RecError.emptyUnpack := by
  unfold recommendView
  rw [h]
  rfl

/-! ## Evaluation lemmas for the fixtures

`Rat` addition and division do not reduce in the kernel (their
normalization runs `Nat.gcd`), so concrete runs are evaluated in
stages: structural steps by `decide` / `rfl`, arithmetic by
`norm_num`. -/

theorem eval_gm : algo9.globalMean = some 3 := by
  rw [show algo9.globalMean =
      listMean ((ratingsDf cdb9).map (fun r => r.score)) from rfl]
  rw [show (ratingsDf cdb9).map (fun r => r.score) = [3] from by decide]
  rw [listMean]
  norm_num

theorem eval_est1 :
    algo9.est 3 (RawId.pstr (toString (9 : Nat))) (RawId.pstr (toString (1 : Nat))) = 4 := by
  rw [show algo9.est 3 (RawId.pstr (toString (9 : Nat)))
        (RawId.pstr (toString (1 : Nat))) =
      clip (1/2) 5 ((3 : Rat) + 0 + 1 + 0) from rfl]
  rw [clip]
  norm_num

theorem eval_est2 :
    algo9.est 3 (RawId.pstr (toString (9 : Nat))) (RawId.pstr (toString (2 : Nat))) = 3 := by
  rw [show algo9.est 3 (RawId.pstr (toString (9 : Nat)))
        (RawId.pstr (toString (2 : Nat))) =
      clip (1/2) 5 ((3 : Rat) + 0 + 0 + 0) from rfl]
  rw [clip]
  norm_num

theorem eval_preds : topnPreds algo9 3 cdb9 9 = [(1, 4), (2, 3)] := by
  rw [topnPreds, show candidateIds cdb9 9 = [1, 2] from by decide,
    List.map_cons, List.map_cons, List.map_nil, eval_est1, eval_est2]

theorem eval_topn :
    get_top_n_recommendations algo9 cdb9 9 3 = some [(mA, 4), (mB, 3)] := by
  unfold get_top_n_recommendations
  rw [eval_gm]
  show some (((sortByKeyDesc (fun p : Nat × Rat => p.2)
      (topnPreds algo9 3 cdb9 9)).take 3).filterMap
      (fun p => (inBulk cdb9 p.1).map (fun m => (m, p.2)))) = some [(mA, 4), (mB, 3)]
  rw [eval_preds,
    show sortByKeyDesc (fun p : Nat × Rat => p.2) [(1, 4), (2, 3)] =
      [(1, 4), (2, 3)] from by decide]
  decide

theorem eval_avg_up : avgScores [⟨7, 2, 3⟩, ⟨9, 1, 2⟩] 1 = 2 := by
  rw [show avgScores [⟨7, 2, 3⟩, ⟨9, 1, 2⟩] 1 =
      ([(2 : Rat)].sum / (([(2 : Rat)].length : Nat) : Rat)) from rfl]
  norm_num

theorem eval_avg_q : avgScores [⟨1, 21, 5⟩, ⟨2, 21, 5⟩, ⟨3, 21, 4⟩] 21 = 14/3 := by
  rw [show avgScores [⟨1, 21, 5⟩, ⟨2, 21, 5⟩, ⟨3, 21, 4⟩] 21 =
      ([(5 : Rat), 5, 4].sum / (([(5 : Rat), 5, 4].length : Nat) : Rat)) from rfl]
  norm_num

theorem eval_quant_frac : quantize2 ((14 : Rat)/3) = 467/100 := by
  have h100 : (100 : Rat) * (14/3) = 1400/3 := by norm_num
  have hf : ⌊(1400/3 : Rat)⌋ = 466 := by
    rw [Int.floor_eq_iff]
    norm_num
  unfold quantize2 roundHalfEven
  rw [h100, hf]
  norm_num

theorem eval_quant_two : quantize2 (2 : Rat) = 2 := by
  have h100 : (100 : Rat) * 2 = 200 := by norm_num
  have hf : ⌊(200 : Rat)⌋ = 200 := by
    rw [Int.floor_eq_iff]
    norm_num
  unfold quantize2 roundHalfEven
  rw [h100, hf]
  norm_num

theorem eval_quant_zero : quantize2 (0 : Rat) = 0 := by
  have h100 : (100 : Rat) * 0 = 0 := by norm_num
  have hf : ⌊(0 : Rat)⌋ = 0 := Int.floor_zero
  unfold quantize2 roundHalfEven
  rw [h100, hf]
  norm_num

/-- C3 counterexample: after a third rating of 4.0 joins two 5.0
ratings, the mean is 14/3 = 4.666…, but the stored average is its
2-decimal quantization 4.67 = 467/100 — the stored value does not
equal the exact mean, refuting the claim as stated. -/
theorem claim_C3_counterexample :
    inBulk (upsertRating cdbQ 3 21 4) 21 =
      some ⟨21, "601", "Q", [],
        quantize2 (avgScores [⟨1, 21, 5⟩, ⟨2, 21, 5⟩, ⟨3, 21, 4⟩] 21)⟩ ∧
    avgScores (upsertRating cdbQ 3 21 4).ratings 21 = 14/3 ∧
    quantize2 (avgScores [⟨1, 21, 5⟩, ⟨2, 21, 5⟩, ⟨3, 21, 4⟩] 21) = 467/100 ∧
    (467/100 : Rat) ≠ 14/3 := by
  refine ⟨rfl, eval_avg_q, ?_, by norm_num⟩
  rw [eval_avg_q]
  exact eval_quant_frac

/-- C9 counterexample: `mA`'s primary key 1 as a string differs from
its own MovieLens id "2", yet "1" is a trained item key (it is `mB`'s
MovieLens id, and `mB` is rated), so ranking scores `mA` as the trained
item "1" — score `4` — and not with the unknown-item default
`clip(global mean) = 3`. -/
theorem claim_C9_counterexample :
    toString mA.id ≠ mA.movielens_id ∧
    algo9.globalMean = some 3 ∧
    topnPreds algo9 3 cdb9 9 = [(1, 4), (2, 3)] ∧
    algo9.itemKeys.contains (RawId.pstr (toString mA.id)) = true ∧
    (4 : Rat) ≠ clip (1/2) 5 3 := by
  refine ⟨by decide, eval_gm, eval_preds, by decide, ?_⟩
  rw [clip]
  norm_num

/-! ## Witnesses: the claim theorems applied at concrete inputs -/

theorem claim_C1_top_n_shape_witness :
    algo9.globalMean = some 3 ∧
    get_top_n_recommendations algo9 cdb9 9 3 = some [(mA, 4), (mB, 3)] ∧
    ([(mA, (4 : Rat)), (mB, 3)].length = min 3 (candidateIds cdb9 9).length ∧
      (∀ p ∈ [(mA, (4 : Rat)), (mB, 3)], p.1 ∈ cdb9.movies ∧
        (ratedMovieIds cdb9 9).contains p.1.id = false) ∧
      List.Pairwise (fun a b => b.2 ≤ a.2) [(mA, (4 : Rat)), (mB, 3)] ∧
      (∀ k : Rat,
        (([(mA, (4 : Rat)), (mB, 3)].map (fun p => (p.1.id, p.2))).filter
          (fun q => q.2 == k)).Sublist
          ((topnPreds algo9 3 cdb9 9).filter (fun q => q.2 == k)))) :=
  ⟨eval_gm, eval_topn,
    claim_C1_top_n_shape algo9 3 cdb9 9 3 [(mA, 4), (mB, 3)] eval_gm eval_topn⟩

theorem claim_C2_strategy_choice_witness :
    ratingCount cdb9 9 ≤ 5 ∧
    (chooseStrategy cdb9 9 = Strategy.contentBased ∧
      (strategyRecs cdb9 st0 9).map Prod.fst = (strategyRecs cdb9 stC 9).map Prod.fst ∧
      (∀ recs st1, strategyRecs cdb9 st0 9 = .ok (recs, st1) → st1 = st0) ∧
      strategyRecs cdb9 st0 9 ≠ .error RecError.modelNotFound) :=
  ⟨by decide, (claim_C2_strategy_choice cdb9 st0 stC 9).2 (by decide)⟩

theorem claim_C3_average_invariant_witness :
    inBulk (upsertRating cdb9 9 1 2) 1 =
      some ⟨1, "2", "A", ["Action"], quantize2 (avgScores [⟨7, 2, 3⟩, ⟨9, 1, 2⟩] 1)⟩ ∧
    (⟨1, "2", "A", ["Action"], quantize2 (avgScores [⟨7, 2, 3⟩, ⟨9, 1, 2⟩] 1)⟩ :
        Movie).average_rating =
      quantize2 (avgScores (upsertRating cdb9 9 1 2).ratings 1) ∧
    quantize2 (avgScores [⟨7, 2, 3⟩, ⟨9, 1, 2⟩] 1) = 2 ∧
    inBulk (deleteRating cdb9 9 1) 1 =
      some ⟨1, "2", "A", ["Action"], quantize2 (avgScores [⟨7, 2, 3⟩] 1)⟩ ∧
    (⟨1, "2", "A", ["Action"], quantize2 (avgScores [⟨7, 2, 3⟩] 1)⟩ :
        Movie).average_rating =
      quantize2 (avgScores (deleteRating cdb9 9 1).ratings 1) ∧
    quantize2 (avgScores [⟨7, 2, 3⟩] 1) = 0 :=
  ⟨rfl,
    (claim_C3_average_invariant cdb9 9 1 2
      ⟨1, "2", "A", ["Action"], quantize2 (avgScores [⟨7, 2, 3⟩, ⟨9, 1, 2⟩] 1)⟩
      ⟨1, "2", "A", ["Action"], quantize2 (avgScores [⟨7, 2, 3⟩] 1)⟩).1 rfl,
    by rw [eval_avg_up]; exact eval_quant_two,
    rfl,
    (claim_C3_average_invariant cdb9 9 1 2
      ⟨1, "2", "A", ["Action"], quantize2 (avgScores [⟨7, 2, 3⟩, ⟨9, 1, 2⟩] 1)⟩
      ⟨1, "2", "A", ["Action"], quantize2 (avgScores [⟨7, 2, 3⟩] 1)⟩).2 rfl,
    by rw [show avgScores [⟨7, 2, 3⟩] 1 = 0 from rfl]; exact eval_quant_zero⟩

theorem claim_C4_content_fallback_witness :
    findUser cdb9 9 = some ⟨9, []⟩ ∧
    recommend_based_on_genres cdb9 9 1 = some [(mA, 4)] ∧
    (∀ p ∈ [(mA, (4 : Rat))], p.1 ∈ cdb9.movies ∧ p.2 = p.1.average_rating) ∧
    ([(mA, (4 : Rat))].length = min 1 cdb9.movies.length ∧
      List.Pairwise (fun a b => b.2 ≤ a.2) [(mA, (4 : Rat))] ∧
      (∀ m ∈ cdb9.movies, m ∉ [(mA, (4 : Rat))].map Prod.fst →
        ∀ p ∈ [(mA, (4 : Rat))], m.average_rating ≤ p.2)) ∧
    findUser cdbG 4 = some ⟨4, ["Action", "Sci-Fi"]⟩ ∧
    recommend_based_on_genres cdbG 4 2 = some [(mG1, 2), (mG2, 5)] ∧
    (∀ p ∈ [(mG1, (2 : Rat)), (mG2, 5)],
      p.1 ∈ cdbG.movies ∧ p.2 = p.1.average_rating) ∧
    ((∀ p ∈ [(mG1, (2 : Rat)), (mG2, 5)], ∃ g ∈ p.1.genres,
        g ∈ (["Action", "Sci-Fi"] : List String)) ∧
      [(mG1, (2 : Rat)), (mG2, 5)].length = min 2 (cdbG.movies.filter (fun m =>
        m.genres.any (fun g => (["Action", "Sci-Fi"] : List String).contains g))).length ∧
      List.Pairwise (fun a b =>
        matchCount ["Action", "Sci-Fi"] b.1 < matchCount ["Action", "Sci-Fi"] a.1 ∨
          (matchCount ["Action", "Sci-Fi"] b.1 = matchCount ["Action", "Sci-Fi"] a.1 ∧
            b.1.average_rating ≤ a.1.average_rating)) [(mG1, (2 : Rat)), (mG2, 5)] ∧
      (∀ m ∈ cdbG.movies.filter (fun m =>
          m.genres.any (fun g => (["Action", "Sci-Fi"] : List String).contains g)),
        m ∉ [(mG1, (2 : Rat)), (mG2, 5)].map Prod.fst →
          ∀ p ∈ [(mG1, (2 : Rat)), (mG2, 5)],
            matchCount ["Action", "Sci-Fi"] m < matchCount ["Action", "Sci-Fi"] p.1 ∨
              (matchCount ["Action", "Sci-Fi"] m = matchCount ["Action", "Sci-Fi"] p.1 ∧
                m.average_rating ≤ p.1.average_rating))) :=
  ⟨by decide, by decide,
    (claim_C4_content_fallback cdb9 9 1 ⟨9, []⟩ [(mA, 4)] (by decide) (by decide)).1,
    (claim_C4_content_fallback cdb9 9 1 ⟨9, []⟩ [(mA, 4)] (by decide) (by decide)).2.1 rfl,
    by decide, by decide,
    (claim_C4_content_fallback cdbG 4 2 ⟨4, ["Action", "Sci-Fi"]⟩ [(mG1, 2), (mG2, 5)]
      (by decide) (by decide)).1,
    (claim_C4_content_fallback cdbG 4 2 ⟨4, ["Action", "Sci-Fi"]⟩ [(mG1, 2), (mG2, 5)]
      (by decide) (by decide)).2.2 (by decide)⟩

theorem claim_C5_load_failure_propagates_witness :
    5 < ratingCount cdb5 1 ∧ st0.cache = none ∧ st0.localFile = none ∧
    st0.storage = none ∧
    strategyRecs cdb5 st0 1 = .error RecError.modelNotFound :=
  ⟨by decide, rfl, rfl, rfl,
    claim_C5_load_failure_propagates cdb5 st0 1 (by decide) rfl rfl rfl⟩

theorem claim_C6_load_not_found_witness :
    st0.cache = none ∧ st0.localFile = none ∧ st0.storage = none ∧
    load_model st0 = .error RecError.modelNotFound :=
  ⟨rfl, rfl, rfl, claim_C6_load_not_found st0 rfl rfl rfl⟩

theorem claim_C7_empty_training_witness :
    cdbNoRatings.ratings = [] ∧
    (train_and_save_model params9 cdbNoRatings stPrev).1.globalMean = none ∧
    (train_and_save_model params9 cdbNoRatings stPrev).2.localFile =
      some (train_and_save_model params9 cdbNoRatings stPrev).1 ∧
    (train_and_save_model params9 cdbNoRatings stPrev).2.storage =
      some (train_and_save_model params9 cdbNoRatings stPrev).1 ∧
    (train_and_save_model params9 cdbNoRatings stPrev).2.cache = none :=
  ⟨rfl, (claim_C7_empty_training params9 cdbNoRatings stPrev rfl).1,
    (claim_C7_empty_training params9 cdbNoRatings stPrev rfl).2.1,
    (claim_C7_empty_training params9 cdbNoRatings stPrev rfl).2.2.1,
    (claim_C7_empty_training params9 cdbNoRatings stPrev rfl).2.2.2⟩

theorem claim_C8_cache_idempotence_witness :
    load_model stC = .ok (algo9, stC) ∧
    (load_model stC = .ok (algo9, stC) ∧
      load_model (train_and_save_model params9 cdb9 stC).2 =
        .ok ((train_and_save_model params9 cdb9 stC).1,
          { (train_and_save_model params9 cdb9 stC).2 with
              cache := some (train_and_save_model params9 cdb9 stC).1,
              reads := (train_and_save_model params9 cdb9 stC).2.reads + 1 })) :=
  ⟨rfl, claim_C8_cache_idempotence stC algo9 stC params9 cdb9 rfl⟩

theorem claim_C9_key_mismatch_witness :
    ((2 : Nat), (3 : Rat)) ∈ topnPreds algo9 3 cdb9 9 ∧
    algo9.itemKeys.contains (RawId.pstr (toString (2 : Nat))) = false ∧
    (algo9.itemKeys = (ratingsDf cdb9).map (fun r => RawId.pstr r.mlId) ∧
      algo9.userKeys = (ratingsDf cdb9).map (fun r => RawId.pint (r.userId : Int)) ∧
      (3 : Rat) = clip (1/2) 5 3) :=
  ⟨by rw [eval_preds]; decide, by decide,
    claim_C9_key_mismatch params9 cdb9 3 9 2 3
      (by rw [show topnPreds (trainSVD params9 (ratingsDf cdb9)) 3 cdb9 9 =
          [(1, 4), (2, 3)] from eval_preds]; decide)
      (by decide)⟩

theorem claim_C10_empty_unpack_witness :
    strategyRecs cdbE st0 1 = .ok ([], st0) ∧
    recommendView cdbE st0 1 = .error RecError.emptyUnpack :=
  ⟨rfl, claim_C10_empty_unpack cdbE st0 1 st0 rfl⟩

end FlixFinder
